import Mathlib

/-!
Shallow embedding of `src/luxai2021/env/lux_env.py` (LuxPythonEnvGym).

The episode controller (`LuxEnvironment`), its imitation-learning variant
(`LuxILEnvironment`), the observation-stacking wrapper (`StackObsWrapper`)
and the replay/checkpoint sidecar (`SaveReplayAndModelCallback`) are
modelled as pure state-passing functions over a record type.  External
collaborators (the game engine, the match controller, the agents) are
modelled at their interface: the Turn Driver is a finite sequence of
decision points followed by a termination signal, the observation and
reward adapters are opaque function fields of the state, and Python
exceptions become explicit result constructors.
-/

/-- One decision point yielded by the Turn Driver:
`(unit, city_tile, team, is_new_turn)`. The actor references are opaque. -/
structure DecisionPoint where
  unit : Option Nat
  city_tile : Option Nat
  team : Nat
  is_new_turn : Bool
deriving DecidableEq, Repr

/-- How a Turn Driver sequence ends: ordinary completion (the Python
generator raises StopIteration) or step failure (GameStepFailedException). -/
inductive DriverEnd where
  | stopIteration
  | gameStepFailed
deriving DecidableEq, Repr

/-- The resumable Turn Driver sequence (`match_controller.run_to_next_observation`):
the decision points it will still yield, then the signal it ends with. -/
structure Driver where
  dps : List DecisionPoint
  ending : DriverEnd
deriving DecidableEq, Repr

/-- Result of resuming the Turn Driver once (Python `next(self.match_generator)`). -/
inductive NextResult where
  | yielded (dp : DecisionPoint)
  | stopIter
  | failed
deriving DecidableEq, Repr

/-- Resume the driver: yield the next decision point, or signal the ending. -/
def Driver.next : Driver → NextResult × Driver
  | ⟨[], DriverEnd.stopIteration⟩ => (NextResult.stopIter, ⟨[], DriverEnd.stopIteration⟩)
  | ⟨[], DriverEnd.gameStepFailed⟩ => (NextResult.failed, ⟨[], DriverEnd.gameStepFailed⟩)
  | ⟨dp :: rest, e⟩ => (NextResult.yielded dp, ⟨rest, e⟩)

/-- A model reference: an object address plus its (opaque) weight content.
Two references with different addresses are distinct objects even when the
content coincides, which lets the embedding distinguish `copy.deepcopy`
from reference sharing. -/
structure MRef where
  addr : Nat
  content : Nat
deriving DecidableEq, Repr

/-- Agent seating mode (`Constants.AGENT_TYPE`): `agent` is pure inference,
`learning` is a learning-mode seat. -/
inductive AgentType where
  | agent
  | learning
deriving DecidableEq, Repr

/-- The mutable state of one `LuxEnvironment` instance (also reused for the
`LuxILEnvironment` variant, which has the same fields minus the scheduler
configuration, and extended by `StackObsWrapper`).  Adapter calls
(`get_observation`, `get_reward`) are opaque function fields. -/
structure LuxEnv where
  current_step : Nat
  total_env_step : Nat
  match_generator : Driver
  /-- The driver sequence the match controller produces for the next episode
  (`match_controller.reset()` followed by `run_to_next_observation()`). -/
  next_episode : Driver
  last_observation_object : Option DecisionPoint
  /-- Seating modes of `match_controller.agents`. -/
  agent_types : List AgentType
  /-- The opponent-policy registry: association list from policy name to an
  opaque agent reference (`self.opponent_agents`). -/
  opponent_agents : List (String × Nat)
  opponent_policy : String
  opponent_agent : Nat
  num_switch : Nat
  model_update_step_freq : Option Nat
  /-- `self.learning_agent.model` (None outside training). -/
  learning_model : Option MRef
  /-- `self.opponent_agent.model`. -/
  opponent_model : Option MRef
  /-- Allocation counter: every live object address is below it, and
  `copy.deepcopy` allocates at it. -/
  next_addr : Nat
  /-- `self.learning_agent.last_unit_obs`: the agent-owned rolling
  observation cache used by the stacking wrapper. -/
  agent_last_unit_obs : Option Nat
  /-- Adapter `learning_agent.get_observation(game, unit, city_tile, team, is_new_turn)`. -/
  get_observation : DecisionPoint → Nat
  /-- Adapter variant taking the rolling `last_unit_obs` cache as well. -/
  get_observation_stacked : DecisionPoint → Option Nat → Nat
  /-- Adapter `learning_agent.get_reward(game, is_game_over, is_new_turn, is_game_error)`. -/
  get_reward : Bool → Bool → Bool → Int

/-- What one `step` call hands back to the trainer
(`return obs, reward, is_game_over, {}`; the empty info dict is omitted). -/
structure StepRet where
  obs : Option Nat
  reward : Int
  done : Bool
deriving DecidableEq, Repr

/-- `model_update`: when the learning agent has a model (training
environment), replace the opponent model by `copy.deepcopy` of it — a fresh
address carrying the same content; otherwise do nothing. -/
def LuxEnv.model_update (env : LuxEnv) : LuxEnv :=
  match env.learning_model with
  | none => env
  | some m =>
      { env with opponent_model := some ⟨env.next_addr, m.content⟩,
                 next_addr := env.next_addr + 1 }

/-- The branch cascade of `switch_opponent_policy` choosing the new policy
name from the uniform draw `p` and the registry keys; `none` models the
Python name `new_opponent_policy` being left unbound (no branch fired). -/
def draw_policy (p : ℚ) (keys : List String) : Option String :=
  if p < 3/10 ∧ keys.contains "imitation" = true then some "imitation"
  else if 3/10 ≤ p ∧ p < 4/10 ∧ keys.contains "random" = true then some "random"
  else if 4/10 ≤ p ∧ keys.contains "self-play" = true then some "self-play"
  else none

/-- `switch_opponent_policy`: increments the diagnostic switch counter, draws
a policy, and swaps the active agent reference only when the drawn policy
differs from the current one.  The Bool is `true` when the call raises
(NameError from the unbound `new_opponent_policy`), in which case only the
counter increment has happened. -/
def LuxEnv.switch_opponent_policy (p : ℚ) (env : LuxEnv) : Bool × LuxEnv :=
  let env1 := { env with num_switch := env.num_switch + 1 }
  match draw_policy p (env1.opponent_agents.map Prod.fst) with
  | none => (true, env1)
  | some np =>
      if env1.opponent_policy ≠ np then
        let agent := (env1.opponent_agents.lookup np).getD env1.opponent_agent
        (false, { env1 with opponent_policy := np, opponent_agent := agent })
      else (false, env1)

/-- The shared body of `LuxEnvironment.step` and `LuxILEnvironment.step`:
apply the action (external game effect), advance both counters, resume the
driver, and map the three resume outcomes to `(obs, reward, done)`.
`is_new_turn` stays `true` in the two exception branches because the Python
local is initialized before the `try`. -/
def LuxEnv.step_core (env : LuxEnv) : StepRet × LuxEnv :=
  let env1 := { env with current_step := env.current_step + 1,
                         total_env_step := env.total_env_step + 1 }
  match env1.match_generator.next with
  | (NextResult.yielded dp, g) =>
      let obs := env1.get_observation dp
      (⟨some obs, env1.get_reward false dp.is_new_turn false, false⟩,
       { env1 with match_generator := g, last_observation_object := some dp })
  | (NextResult.stopIter, g) =>
      (⟨none, env1.get_reward true true false, true⟩, { env1 with match_generator := g })
  | (NextResult.failed, g) =>
      (⟨none, env1.get_reward true true true, true⟩, { env1 with match_generator := g })

/-- The two scheduler calls `step` may make before returning. -/
inductive SchedEvent where
  | modelUpdateCall
  | policySwitchCall
deriving DecidableEq, Repr

/-- The cadence block at the end of `LuxEnvironment.step`: when a cadence is
configured, run `model_update` when the cumulative counter is due and the
active policy is self-play, then `switch_opponent_policy` when the counter
is due.  Returns (raised, events performed, state); `raised` is `true` when
the switch raised. -/
def LuxEnv.cadence_block (p : ℚ) (env1 : LuxEnv) : Bool × List SchedEvent × LuxEnv :=
  match env1.model_update_step_freq with
  | none => (false, [], env1)
  | some f =>
      let r1 :=
        if env1.total_env_step % f = 0 ∧ env1.opponent_policy = "self-play" then
          ([SchedEvent.modelUpdateCall], env1.model_update)
        else ([], env1)
      if r1.2.total_env_step % f = 0 then
        let r2 := r1.2.switch_opponent_policy p
        (r2.1, r1.1 ++ [SchedEvent.policySwitchCall], r2.2)
      else (false, r1.1, r1.2)

/-- `LuxEnvironment.step`: the shared body followed by the cadence block.
The first component is `none` when an exception escaped the call (the
switch raised), in which case nothing is returned to the trainer; the event
list records which scheduler calls were made. -/
def LuxEnv.step (env : LuxEnv) (p : ℚ) : Option StepRet × List SchedEvent × LuxEnv :=
  let r := env.step_core
  let c := r.2.cadence_block p
  (if c.1 then none else some r.1, c.2.1, c.2.2)

/-- `LuxILEnvironment.step`: identical to the shared body, with no cadence
block. -/
def LuxEnv.step_il (env : LuxEnv) : StepRet × LuxEnv :=
  env.step_core

/-- `LuxEnvironment.reset`: zero the per-episode counter (the cumulative one
is untouched), clear the cached decision point, start a fresh driver
sequence, pull the first decision point and build the first observation.
The pull is not guarded: a terminal signal on the very first resume
propagates to the caller (`Except.error`). -/
def LuxEnv.reset (env : LuxEnv) : Except DriverEnd (Nat × LuxEnv) :=
  let env1 := { env with current_step := 0, last_observation_object := none,
                         match_generator := env.next_episode }
  match env1.match_generator.next with
  | (NextResult.yielded dp, g) =>
      Except.ok (env1.get_observation dp,
        { env1 with match_generator := g, last_observation_object := some dp })
  | (NextResult.stopIter, _) => Except.error DriverEnd.stopIteration
  | (NextResult.failed, _) => Except.error DriverEnd.gameStepFailed

/-- Outcome of `run_no_learn`: the initial assertion failed, the Python
local `is_game_error` was read while unbound (the driver yielded a decision
point, so neither `except` branch ran), or the run finished with the given
error flag. -/
inductive RunNoLearnOutcome where
  | assertionError
  | nameError
  | finished (is_game_error : Bool)
deriving DecidableEq, Repr

/-- `LuxEnvironment.run_no_learn`: assert every seated agent is in pure
inference mode, reset the episode bookkeeping, start a fresh driver and
resume it once; ordinary completion gives `finished false`, step failure
gives `finished true`.  `current_step` is never incremented here. -/
def LuxEnv.run_no_learn (env : LuxEnv) : RunNoLearnOutcome × LuxEnv :=
  if env.agent_types.all (fun a => a = AgentType.agent) then
    let env1 := { env with current_step := 0, last_observation_object := none,
                           match_generator := env.next_episode }
    match env1.match_generator.next with
    | (NextResult.yielded _, g) => (RunNoLearnOutcome.nameError, { env1 with match_generator := g })
    | (NextResult.stopIter, g) => (RunNoLearnOutcome.finished false, { env1 with match_generator := g })
    | (NextResult.failed, g) => (RunNoLearnOutcome.finished true, { env1 with match_generator := g })
  else (RunNoLearnOutcome.assertionError, env)

/-- Modelled from the spec: the Turn Driver (`MatchController.run_to_next_observation`,
whose code is not under src/) yields one decision-point tuple per pending
decision of a learning-mode agent; when every seated agent is in pure
inference mode it advances the whole game internally — regardless of how
many decision points the game itself contains — and the surfaced sequence
is empty, ending with ordinary completion or a step-failure signal. -/
def driverForInferenceAgents (_gameDecisionPoints : Nat) (e : DriverEnd) : Driver :=
  ⟨[], e⟩

/-- `LuxEnvironment.__init__` lines choosing the initial active policy:
the requested name when the registry has it, otherwise the first registry
key. -/
def init_opponent_policy (initial : String) (agents : List (String × Nat)) : String :=
  if (agents.map Prod.fst).contains initial = true then initial
  else ((agents.map Prod.fst).headD "")

/-- The registry invariant: the active policy name is a key of the registry. -/
def LuxEnv.PolicyInv (env : LuxEnv) : Prop :=
  env.opponent_policy ∈ env.opponent_agents.map Prod.fst

/-- Modelled from the spec: the disk-based self-play refresh (present in
`model_update` only as a commented-out glob; the live variant is not under
src/).  With the 50/50 coin `true`, sample uniformly among the existing
snapshot step indices via the uniform draw `idx`; with the coin `false`,
pick the snapshot with the highest embedded step index.  With no snapshot
the refresh is skipped (`none`) rather than failing. -/
def select_snapshot (coin : Bool) (idx : Nat) (snaps : List Nat) : Option Nat :=
  if snaps = [] then none
  else if coin then snaps.get? (idx % snaps.length)
  else some (snaps.foldl Nat.max 0)

/-! ## Stacking wrapper and sidecar -/

/-- The `StackObsWrapper` state: the wrapped environment plus the wrapper
mirror of the rolling observation cache. -/
structure StackObsWrapper where
  env : LuxEnv
  last_unit_obs : Option Nat

/-- `StackObsWrapper.reset`: zero the per-episode counter and the cached
decision point, copy the agent-owned rolling cache into the wrapper (the
line `self.last_unit_obs = self.learning_agent.last_unit_obs` — note the
cache is copied, not cleared), start a fresh driver, pull the first
decision point and build the first observation from it and the copied
cache. -/
def StackObsWrapper.reset (w : StackObsWrapper) : Except DriverEnd (Nat × StackObsWrapper) :=
  let e1 := { w.env with current_step := 0, last_observation_object := none }
  let lu := e1.agent_last_unit_obs
  let e2 := { e1 with match_generator := e1.next_episode }
  match e2.match_generator.next with
  | (NextResult.yielded dp, g) =>
      let obs := e2.get_observation_stacked dp lu
      Except.ok (obs, ⟨{ e2 with match_generator := g, last_observation_object := some dp }, lu⟩)
  | (NextResult.stopIter, _) => Except.error DriverEnd.stopIteration
  | (NextResult.failed, _) => Except.error DriverEnd.gameStepFailed

/-- How one replay attempt of the sidecar ends: the auxiliary `reset` runs a
whole game and raises StopIteration on ordinary completion, raises the step
failure exception, or raises some other fault. -/
inductive ReplayOutcome where
  | completes
  | stepFails
  | otherFault
deriving DecidableEq, Repr

/-- One loop iteration of `SaveReplayAndModelCallback._on_step`: ordinary
completion is swallowed silently (`except StopIteration: pass`); the step
failure exception and every other fault are caught by `except Exception`
and logged (the returned index). -/
def run_replay_attempt (i : Nat) (o : ReplayOutcome) : Option Nat :=
  match o with
  | ReplayOutcome.completes => none
  | ReplayOutcome.stepFails => some i
  | ReplayOutcome.otherFault => some i

/-- The replay loop over a list of seeds, in order: every attempt runs (the
count), and faults only add a log entry. -/
def run_replay_list (outcomes : Nat → ReplayOutcome) : List Nat → Nat × List Nat
  | [] => (0, [])
  | i :: rest =>
      let attempt := (run_replay_attempt i (outcomes i)).toList
      let r := run_replay_list outcomes rest
      (1 + r.1, attempt ++ r.2)

/-- The sidecar callback configuration. -/
structure SidecarCB where
  n_calls : Nat
  save_freq : Nat
  replay_num_episodes : Nat
deriving DecidableEq, Repr

/-- `SaveReplayAndModelCallback._on_step`: on a due call, save the model
(external side effect) and run every seeded replay attempt; always return
`true` so training continues.  Result: (returned value, attempts run,
logged attempt indices). -/
def SidecarCB.on_step (cb : SidecarCB) (outcomes : Nat → ReplayOutcome) : Bool × Nat × List Nat :=
  if cb.n_calls % cb.save_freq = 0 then
    let r := run_replay_list outcomes (List.range cb.replay_num_episodes)
    (true, r.1, r.2)
  else (true, 0, [])

/-! ## Concrete states used by witnesses and counterexamples -/

/-- A concrete first decision point. -/
def dp0 : DecisionPoint := ⟨some 1, none, 0, true⟩

/-- A concrete baseline environment. -/
def baseEnv : LuxEnv where
  current_step := 0
  total_env_step := 0
  match_generator := ⟨[], DriverEnd.stopIteration⟩
  next_episode := ⟨[dp0], DriverEnd.stopIteration⟩
  last_observation_object := none
  agent_types := [AgentType.learning, AgentType.agent]
  opponent_agents := [("self-play", 1)]
  opponent_policy := "self-play"
  opponent_agent := 1
  num_switch := 0
  model_update_step_freq := none
  learning_model := none
  opponent_model := none
  next_addr := 5
  agent_last_unit_obs := none
  get_observation := fun dp => dp.team + 1
  get_observation_stacked := fun dp prev => 1000 * (prev.getD 0) + dp.team + 1
  get_reward := fun go nt ge =>
    (if go then 1 else 0) + (if nt then 10 else 0) + (if ge then 100 else 0)

/-- A post-reset training environment whose driver fails on the first step
and whose cadence is due on every step, with only the self-play policy
registered. -/
def c1Env0 : LuxEnv :=
  { baseEnv with next_episode := ⟨[dp0], DriverEnd.gameStepFailed⟩,
                 model_update_step_freq := some 1 }

/-- Registry holding only the imitation policy. -/
def c6Env : LuxEnv :=
  { baseEnv with opponent_agents := [("imitation", 7)],
                 opponent_policy := "imitation", opponent_agent := 7 }

/-- A validation environment: both seats in pure inference mode, a game
with 2 internal decision points, driver ending by ordinary completion. -/
def c3Env : LuxEnv :=
  { baseEnv with agent_types := [AgentType.agent, AgentType.agent],
                 next_episode := driverForInferenceAgents 2 DriverEnd.stopIteration }

/-- A wrapper about to be reset while the agent-owned rolling cache still
holds the previous episode value 42. -/
def c8Wrapper : StackObsWrapper :=
  ⟨{ baseEnv with agent_last_unit_obs := some 42 }, none⟩

/-- The proviso under which the cadence block of `step` cannot raise: no
cadence configured, or every policy name the switch cascade can need is
registered (all three of imitation, random and self-play). -/
def cadence_safe (env : LuxEnv) : Prop :=
  env.model_update_step_freq = none ∨
    ("imitation" ∈ env.opponent_agents.map Prod.fst
      ∧ "random" ∈ env.opponent_agents.map Prod.fst
      ∧ "self-play" ∈ env.opponent_agents.map Prod.fst)

/-- Concrete sidecar configuration: due call (10 is a multiple of 5),
three replay attempts. -/
def c9CB : SidecarCB := ⟨10, 5, 3⟩

/-- Concrete replay outcomes: the middle attempt raises the step failure,
the others complete. -/
def c9Outcomes : Nat → ReplayOutcome :=
  fun i => if i = 1 then ReplayOutcome.stepFails else ReplayOutcome.completes

/-- Training environment holding an in-memory learning model at address 2. -/
def c10Env : LuxEnv :=
  { baseEnv with learning_model := some ⟨2, 99⟩, opponent_model := some ⟨3, 7⟩ }

/-- Training environment with a cadence of 1 external step. -/
def c4Env : LuxEnv :=
  { baseEnv with model_update_step_freq := some 1 }

/-! ## Helper lemmas -/

/-- `step_core` advances the cumulative counter by one and leaves the
scheduler configuration, the registry and the active policy untouched. -/
theorem step_core_fields (env : LuxEnv) :
    (env.step_core).2.total_env_step = env.total_env_step + 1
    ∧ (env.step_core).2.opponent_policy = env.opponent_policy
    ∧ (env.step_core).2.model_update_step_freq = env.model_update_step_freq
    ∧ (env.step_core).2.opponent_agents = env.opponent_agents := by
  rcases hg : env.match_generator with ⟨dps, e⟩
  cases dps <;> cases e <;> simp [LuxEnv.step_core, Driver.next, hg]

/-- `model_update` leaves everything but the opponent model and the
allocation counter untouched. -/
theorem model_update_fields (env : LuxEnv) :
    (env.model_update).total_env_step = env.total_env_step
    ∧ (env.model_update).current_step = env.current_step
    ∧ (env.model_update).opponent_policy = env.opponent_policy
    ∧ (env.model_update).opponent_agents = env.opponent_agents
    ∧ (env.model_update).match_generator = env.match_generator
    ∧ (env.model_update).num_switch = env.num_switch
    ∧ (env.model_update).learning_model = env.learning_model
    ∧ (env.model_update).model_update_step_freq = env.model_update_step_freq := by
  cases h : env.learning_model <;> simp [LuxEnv.model_update, h]

/-- A drawn policy name is always a registry key the cascade has checked. -/
theorem draw_policy_mem (p : ℚ) (keys : List String) (s : String)
    (h : draw_policy p keys = some s) : s ∈ keys := by
  unfold draw_policy at h
  split at h
  · rename_i hc
    cases h
    exact List.mem_of_elem_eq_true hc.2
  · split at h
    · rename_i hc
      cases h
      exact List.mem_of_elem_eq_true hc.2.2
    · split at h
      · rename_i hc
        cases h
        exact List.mem_of_elem_eq_true hc.2
      · cases h

/-- With all three policy names registered the cascade always fires. -/
theorem draw_policy_total (p : ℚ) (keys : List String)
    (h1 : "imitation" ∈ keys) (h2 : "random" ∈ keys) (h3 : "self-play" ∈ keys) :
    draw_policy p keys ≠ none := by
  unfold draw_policy
  by_cases hp1 : p < 3/10
  · simp [hp1, h1]
  · by_cases hp2 : p < 4/10
    · simp [hp1, hp2, le_of_not_lt hp1, h2]
    · simp [hp1, hp2, le_of_not_lt hp1, le_of_not_lt hp2, h3]

/-- With all three policy names registered, `switch_opponent_policy` never
raises. -/
theorem switch_no_raise (env : LuxEnv) (p : ℚ)
    (h1 : "imitation" ∈ env.opponent_agents.map Prod.fst)
    (h2 : "random" ∈ env.opponent_agents.map Prod.fst)
    (h3 : "self-play" ∈ env.opponent_agents.map Prod.fst) :
    (env.switch_opponent_policy p).1 = false := by
  unfold LuxEnv.switch_opponent_policy
  cases hd : draw_policy p (env.opponent_agents.map Prod.fst) with
  | none => exact absurd hd (draw_policy_total p _ h1 h2 h3)
  | some np =>
      simp only [hd]
      split <;> rfl

/-! ## Claim theorems -/

/-- C2: `reset` zeroes the per-episode counter while leaving the cumulative
counter unchanged, starts a fresh driver sequence, pulls the first decision
point, caches it and returns the observation built from it; when even the
first pull ends in a terminal signal, that signal propagates to the caller. -/
theorem c2_reset_contract (env : LuxEnv) :
    (∀ dp rest, env.next_episode.dps = dp :: rest →
      env.reset = Except.ok (env.get_observation dp,
        { env with current_step := 0,
                   match_generator := ⟨rest, env.next_episode.ending⟩,
                   last_observation_object := some dp }))
    ∧ (env.next_episode.dps = [] → env.reset = Except.error env.next_episode.ending) := by
  rcases he : env.next_episode with ⟨dps, e⟩
  constructor
  · intro dp rest h
    simp only [he] at h ⊢
    subst h
    simp [LuxEnv.reset, Driver.next, he]
  · intro h
    simp only [he] at h ⊢
    subst h
    cases e <;> simp [LuxEnv.reset, Driver.next, he]

/-- C2 witness at a concrete state. -/
theorem c2_reset_contract_witness :
    baseEnv.reset = Except.ok (1,
      { baseEnv with current_step := 0,
                     match_generator := ⟨[], DriverEnd.stopIteration⟩,
                     last_observation_object := some dp0 }) := by
  have h := (c2_reset_contract baseEnv).1 dp0 [] rfl
  simpa using h

/-- C10: with no learning model, `model_update` is a complete no-op (the
whole state is returned unchanged); with a learning model, the opponent
model becomes a copy carrying the same content at a freshly allocated
address — a distinct object from the learning model — and every other
controller field is untouched. -/
theorem c10_model_update_frame (env : LuxEnv) :
    (env.learning_model = none → env.model_update = env)
    ∧ (∀ m, env.learning_model = some m →
        (env.model_update).opponent_model = some ⟨env.next_addr, m.content⟩
        ∧ ((env.model_update).opponent_model.map MRef.content = some m.content)
        ∧ (m.addr < env.next_addr →
            (env.model_update).opponent_model.map MRef.addr ≠ some m.addr)
        ∧ (env.model_update).current_step = env.current_step
        ∧ (env.model_update).total_env_step = env.total_env_step
        ∧ (env.model_update).match_generator = env.match_generator
        ∧ (env.model_update).opponent_policy = env.opponent_policy
        ∧ (env.model_update).opponent_agents = env.opponent_agents
        ∧ (env.model_update).learning_model = env.learning_model
        ∧ (env.model_update).num_switch = env.num_switch) := by
  constructor
  · intro h
    simp [LuxEnv.model_update, h]
  · intro m h
    refine ⟨by simp [LuxEnv.model_update, h], by simp [LuxEnv.model_update, h], ?_,
      by simp [LuxEnv.model_update, h], by simp [LuxEnv.model_update, h],
      by simp [LuxEnv.model_update, h], by simp [LuxEnv.model_update, h],
      by simp [LuxEnv.model_update, h], by simp [LuxEnv.model_update, h],
      by simp [LuxEnv.model_update, h]⟩
    intro hlt
    simp [LuxEnv.model_update, h]
    omega

/-- C10 witness: the no-op case at `baseEnv` (no learning model) and the
copy case at `c10Env` (learning model ⟨2, 99⟩, allocation counter 5). -/
theorem c10_model_update_frame_witness :
    baseEnv.model_update = baseEnv
    ∧ (c10Env.model_update).opponent_model = some ⟨5, 99⟩
    ∧ (c10Env.model_update).opponent_model.map MRef.addr ≠ some 2 := by
  refine ⟨(c10_model_update_frame baseEnv).1 rfl, ?_, ?_⟩
  · exact ((c10_model_update_frame c10Env).2 ⟨2, 99⟩ rfl).1
  · exact ((c10_model_update_frame c10Env).2 ⟨2, 99⟩ rfl).2.2.1 (by decide)

/-- C6 (code slip): with only the imitation policy registered and the draw
p = 1/2 no branch of the cascade fires, the Python local
`new_opponent_policy` stays unbound, and `switch_opponent_policy` raises a
NameError — contradicting the claim that scheduler operations never raise. -/
theorem c6_switch_policy_raises :
    (c6Env.switch_opponent_policy (1/2)).1 = true := by
  norm_num [LuxEnv.switch_opponent_policy, draw_policy, c6Env, baseEnv]
  decide

/-- C3 (amended): `run_no_learn` ends in an assertion failure unless every
seated agent is in pure-inference mode; with only inference agents the
driver surfaces no decision point, so the single resume ends the run and
the returned flag is false on ordinary completion and true on step
failure; the per-episode counter is reset to zero and never incremented by
this call. -/
theorem c3_run_no_learn_contract (env : LuxEnv) :
    (env.agent_types.all (fun a => a = AgentType.agent) = false →
      (env.run_no_learn).1 = RunNoLearnOutcome.assertionError)
    ∧ (env.agent_types.all (fun a => a = AgentType.agent) = true →
        ∀ n e, env.next_episode = driverForInferenceAgents n e →
          (env.run_no_learn).1 = RunNoLearnOutcome.finished (e = DriverEnd.gameStepFailed)
          ∧ (env.run_no_learn).2.current_step = 0) := by
  constructor
  · intro h
    simp [LuxEnv.run_no_learn, h]
  · intro h n e he
    cases e <;> simp [LuxEnv.run_no_learn, h, he, driverForInferenceAgents, Driver.next]

/-- C3 witness: both seats in inference mode, a game with 2 internal
decision points ending by ordinary completion — the call returns the
no-error flag and the per-episode counter is 0 afterwards. -/
theorem c3_run_no_learn_contract_witness :
    (c3Env.run_no_learn).1 = RunNoLearnOutcome.finished false
    ∧ (c3Env.run_no_learn).2.current_step = 0 := by
  have h := (c3_run_no_learn_contract c3Env).2 rfl 2 DriverEnd.stopIteration rfl
  simpa using h

/-- C3 counterexample: on that same run the claim asserts the episode index
afterwards equals 2, but `run_no_learn` zeroes `current_step` and never
increments it, so it is 0, not 2. -/
theorem c3_episode_index_not_two :
    (c3Env.run_no_learn).1 = RunNoLearnOutcome.finished false
    ∧ ¬ (c3Env.run_no_learn).2.current_step = 2 := by decide

/-- C5: the active-policy invariant — the active policy name is a registry
key — holds after construction for any requested initial name and any
non-empty registry, and is preserved by every `switch_opponent_policy`
call, which installs only verified registry keys and leaves the active
agent reference untouched when the drawn policy equals the current one. -/
theorem c5_policy_registry_invariant :
    (∀ (initial : String) (agents : List (String × Nat)), agents ≠ [] →
        init_opponent_policy initial agents ∈ agents.map Prod.fst)
    ∧ (∀ (p : ℚ) (env : LuxEnv), env.PolicyInv → ((env.switch_opponent_policy p).2).PolicyInv)
    ∧ (∀ (p : ℚ) (env : LuxEnv),
        draw_policy p (env.opponent_agents.map Prod.fst) = some env.opponent_policy →
        ((env.switch_opponent_policy p).2).opponent_policy = env.opponent_policy
        ∧ ((env.switch_opponent_policy p).2).opponent_agent = env.opponent_agent) := by
  refine ⟨?_, ?_, ?_⟩
  · intro initial agents hne
    unfold init_opponent_policy
    split
    · rename_i hc
      exact List.mem_of_elem_eq_true hc
    · cases agents with
      | nil => exact absurd rfl hne
      | cons a as => simp
  · intro p env hInv
    simp only [LuxEnv.switch_opponent_policy]
    cases hd : draw_policy p (env.opponent_agents.map Prod.fst) with
    | none => simpa [LuxEnv.PolicyInv] using hInv
    | some np =>
        have hmem := draw_policy_mem p _ np hd
        simp only [hd]
        split
        · simpa [LuxEnv.PolicyInv] using hmem
        · simpa [LuxEnv.PolicyInv] using hInv
  · intro p env hd
    simp only [LuxEnv.switch_opponent_policy, hd]
    simp

/-- C5 witness at a concrete state: construction and one switch call. -/
theorem c5_policy_registry_invariant_witness :
    init_opponent_policy "self-play" [("self-play", 1)] ∈ [("self-play", 1)].map Prod.fst
    ∧ ((baseEnv.switch_opponent_policy (1/2)).2).PolicyInv := by
  refine ⟨(c5_policy_registry_invariant).1 "self-play" [("self-play", 1)] (by decide), ?_⟩
  exact (c5_policy_registry_invariant).2.1 (1/2) baseEnv (by simp [LuxEnv.PolicyInv, baseEnv])

/-- C7 (disk path modelled from the spec): when the refresh performs a
replacement it installs a deep copy of the in-memory learning model (the
path present in src); the spec-modelled snapshot selection picks the
snapshot with the highest embedded step index on the deterministic branch
(step20 among step10, step20, step5), skips when no snapshot exists, and on
the uniform branch can reach every snapshot. -/
theorem c7_self_play_refresh_contract :
    (∀ (env : LuxEnv) (m : MRef), env.learning_model = some m →
        (env.model_update).opponent_model = some ⟨env.next_addr, m.content⟩)
    ∧ (∀ i : Nat, select_snapshot false i [10, 20, 5] = some 20)
    ∧ (∀ (c : Bool) (i : Nat), select_snapshot c i [] = none)
    ∧ (select_snapshot true 0 [10, 20, 5] = some 10
        ∧ select_snapshot true 1 [10, 20, 5] = some 20
        ∧ select_snapshot true 2 [10, 20, 5] = some 5) := by
  refine ⟨?_, ?_, ?_, by decide, by decide, by decide⟩
  · intro env m h
    simp [LuxEnv.model_update, h]
  · intro i
    rfl
  · intro c i
    rfl

/-- C7 witness: the deep-copy path at a concrete training state and the
deterministic latest-snapshot selection. -/
theorem c7_self_play_refresh_contract_witness :
    (c10Env.model_update).opponent_model = some ⟨5, 99⟩
    ∧ select_snapshot false 0 [10, 20, 5] = some 20 := by
  exact ⟨(c7_self_play_refresh_contract).1 c10Env ⟨2, 99⟩ rfl,
    (c7_self_play_refresh_contract).2.1 0⟩

/-- Every replay attempt adds one to the run count. -/
theorem run_replay_list_count (outcomes : Nat → ReplayOutcome) (l : List Nat) :
    (run_replay_list outcomes l).1 = l.length := by
  induction l with
  | nil => rfl
  | cons i rest ih => simp [run_replay_list, ih, Nat.add_comm]

/-- An attempt index is logged exactly when its attempt did not end by
ordinary completion. -/
theorem run_replay_list_mem (outcomes : Nat → ReplayOutcome) (l : List Nat) (x : Nat) :
    x ∈ (run_replay_list outcomes l).2 ↔ (x ∈ l ∧ outcomes x ≠ ReplayOutcome.completes) := by
  induction l with
  | nil => simp [run_replay_list]
  | cons i rest ih =>
      by_cases hx : x = i
      · subst hx
        cases ho : outcomes x <;> simp [run_replay_list, run_replay_attempt, ho, ih]
      · cases ho : outcomes i <;>
          simp [run_replay_list, run_replay_attempt, ho, ih, hx]

/-- C9: on a due save step the sidecar runs every configured replay
attempt, in order and regardless of how each attempt ends; ordinary
completion is silent, step failure and any other fault are logged; the
callback always returns true, so no exception reaches the trainer. -/
theorem c9_sidecar_contract (cb : SidecarCB) (outcomes : Nat → ReplayOutcome)
    (_hf : 0 < cb.save_freq) (hdue : cb.n_calls % cb.save_freq = 0) :
    (cb.on_step outcomes).1 = true
    ∧ (cb.on_step outcomes).2.1 = cb.replay_num_episodes
    ∧ (∀ i : Nat, i ∈ (cb.on_step outcomes).2.2 ↔
        (i < cb.replay_num_episodes ∧ outcomes i ≠ ReplayOutcome.completes)) := by
  have hstep : cb.on_step outcomes =
      (true, run_replay_list outcomes (List.range cb.replay_num_episodes)) := by
    simp [SidecarCB.on_step, hdue]
  rw [hstep]
  refine ⟨rfl, ?_, ?_⟩
  · simpa using run_replay_list_count outcomes (List.range cb.replay_num_episodes)
  · intro i
    simpa [List.mem_range] using
      run_replay_list_mem outcomes (List.range cb.replay_num_episodes) i

/-- C9 witness: a due call with three seeded replay attempts, the second of
which raises the step failure. -/
theorem c9_sidecar_contract_witness :
    (c9CB.on_step c9Outcomes).1 = true
    ∧ (c9CB.on_step c9Outcomes).2.1 = 3
    ∧ (1 ∈ (c9CB.on_step c9Outcomes).2.2 ↔
        (1 < 3 ∧ c9Outcomes 1 ≠ ReplayOutcome.completes)) := by
  have h := c9_sidecar_contract c9CB c9Outcomes (by decide) (by decide)
  exact ⟨h.1, h.2.1, h.2.2 1⟩

/-- The events reported by the cadence block: the self-play refresh is
called exactly when the counter is due and the active policy is self-play,
the policy switch exactly when the counter is due; with no cadence
configured, neither is ever called. -/
theorem cadence_block_events (env1 : LuxEnv) (p : ℚ) :
    (env1.model_update_step_freq = none → (env1.cadence_block p).2.1 = [])
    ∧ (∀ f, env1.model_update_step_freq = some f →
        ((SchedEvent.modelUpdateCall ∈ (env1.cadence_block p).2.1 ↔
            (env1.total_env_step % f = 0 ∧ env1.opponent_policy = "self-play"))
          ∧ (SchedEvent.policySwitchCall ∈ (env1.cadence_block p).2.1 ↔
            env1.total_env_step % f = 0))) := by
  constructor
  · intro h
    simp [LuxEnv.cadence_block, h]
  · intro f h
    by_cases h1 : env1.total_env_step % f = 0 ∧ env1.opponent_policy = "self-play"
    · have ht : (env1.model_update).total_env_step % f = 0 := by
        rw [(model_update_fields env1).1]
        exact h1.1
      simp [LuxEnv.cadence_block, h, h1, ht, h1.1]
    · by_cases h2 : env1.total_env_step % f = 0
      · have hsp : ¬ env1.opponent_policy = "self-play" := fun hs => h1 ⟨h2, hs⟩
        simp [LuxEnv.cadence_block, h, h1, h2, hsp]
      · have hsp : (env1.opponent_policy = "self-play") ∨ ¬ (env1.opponent_policy = "self-play") :=
          em _
        rcases hsp with hs | hs <;> simp [LuxEnv.cadence_block, h, h1, h2, hs]

/-- C4: after the outcome of a `step` call is determined, the self-play
weight refresh is called exactly when the advanced cumulative counter is
divisible by the configured cadence and the active policy is self-play,
and the opponent-policy switch exactly when the advanced counter is
divisible by the cadence; with no cadence configured neither is ever
called. -/
theorem c4_cadence_contract (env : LuxEnv) (p : ℚ) :
    (env.model_update_step_freq = none → (env.step p).2.1 = [])
    ∧ (∀ f, env.model_update_step_freq = some f → 0 < f →
        ((SchedEvent.modelUpdateCall ∈ (env.step p).2.1 ↔
            ((env.total_env_step + 1) % f = 0 ∧ env.opponent_policy = "self-play"))
          ∧ (SchedEvent.policySwitchCall ∈ (env.step p).2.1 ↔
            (env.total_env_step + 1) % f = 0))) := by
  have hs := step_core_fields env
  have hc := cadence_block_events (env.step_core).2 p
  have hstep : (env.step p).2.1 = ((env.step_core).2.cadence_block p).2.1 := rfl
  constructor
  · intro h
    rw [hstep]
    exact hc.1 (by rw [hs.2.2.1, h])
  · intro f h _
    have h2 := hc.2 f (by rw [hs.2.2.1, h])
    rw [hs.1, hs.2.1] at h2
    rw [hstep]
    exact h2

/-- C4 witness: no cadence at the base state; cadence 1 due on the first
step at the training state. -/
theorem c4_cadence_contract_witness :
    (baseEnv.step (1/2)).2.1 = []
    ∧ (SchedEvent.policySwitchCall ∈ (c4Env.step (1/2)).2.1 ↔
        (c4Env.total_env_step + 1) % 1 = 0) := by
  exact ⟨(c4_cadence_contract baseEnv (1/2)).1 rfl,
    ((c4_cadence_contract c4Env (1/2)).2 1 rfl (by decide)).2⟩

/-- Under the `cadence_safe` proviso, the cadence block never raises. -/
theorem cadence_block_no_raise (env1 : LuxEnv) (p : ℚ)
    (h1 : "imitation" ∈ env1.opponent_agents.map Prod.fst)
    (h2 : "random" ∈ env1.opponent_agents.map Prod.fst)
    (h3 : "self-play" ∈ env1.opponent_agents.map Prod.fst) :
    (env1.cadence_block p).1 = false := by
  have hag := (model_update_fields env1).2.2.2.1
  cases hf : env1.model_update_step_freq with
  | none => simp [LuxEnv.cadence_block, hf]
  | some f =>
      by_cases hd1 : env1.total_env_step % f = 0 ∧ env1.opponent_policy = "self-play"
      · have ht : (env1.model_update).total_env_step % f = 0 := by
          rw [(model_update_fields env1).1]
          exact hd1.1
        have hsw : ((env1.model_update).switch_opponent_policy p).1 = false := by
          apply switch_no_raise
          · rw [hag]; exact h1
          · rw [hag]; exact h2
          · rw [hag]; exact h3
        simp [LuxEnv.cadence_block, hf, hd1, ht, hsw]
      · by_cases hd2 : env1.total_env_step % f = 0
        · have hsw : (env1.switch_opponent_policy p).1 = false :=
            switch_no_raise env1 p h1 h2 h3
          have hb : ¬ env1.opponent_policy = "self-play" := fun hs => hd1 ⟨hd2, hs⟩
          simp [LuxEnv.cadence_block, hf, hd1, hd2, hb, hsw]
        · have hor := em (env1.opponent_policy = "self-play")
          rcases hor with hs | hs <;> simp [LuxEnv.cadence_block, hf, hd1, hd2, hs]

/-- C1 (amended): the shared step body maps the three driver outcomes to
the claimed `(observation, reward, done)` triples — step failure and
ordinary completion give a null observation, `done = true` and a reward
computed with the matching `is_game_over`/`is_game_error` flags, a yielded
decision point gives the next observation with `done = false` — and `done`
is true exactly on the call where the driver signals; the IL variant is
this body verbatim, and the plain variant returns this triple without any
exception escaping provided the cadence block cannot fault (no cadence
configured, or all three policy names registered). -/
theorem c1_step_termination_contract (env : LuxEnv) (p : ℚ) :
    ((env.match_generator.dps = [] ∧ env.match_generator.ending = DriverEnd.gameStepFailed →
        (env.step_core).1 = ⟨none, env.get_reward true true true, true⟩)
      ∧ (env.match_generator.dps = [] ∧ env.match_generator.ending = DriverEnd.stopIteration →
        (env.step_core).1 = ⟨none, env.get_reward true true false, true⟩)
      ∧ (∀ dp rest, env.match_generator.dps = dp :: rest →
        (env.step_core).1 =
          ⟨some (env.get_observation dp), env.get_reward false dp.is_new_turn false, false⟩))
    ∧ ((env.step_core).1.done = true ↔ env.match_generator.dps = [])
    ∧ env.step_il = env.step_core
    ∧ (cadence_safe env → (env.step p).1 = some (env.step_core).1) := by
  rcases hg : env.match_generator with ⟨dps, e⟩
  refine ⟨⟨?_, ?_, ?_⟩, ?_, rfl, ?_⟩
  · rintro ⟨h1, h2⟩
    simp only [hg] at h1 h2
    subst h1; subst h2
    simp [LuxEnv.step_core, Driver.next, hg]
  · rintro ⟨h1, h2⟩
    simp only [hg] at h1 h2
    subst h1; subst h2
    simp [LuxEnv.step_core, Driver.next, hg]
  · intro dp rest h1
    simp only [hg] at h1
    subst h1
    simp [LuxEnv.step_core, Driver.next, hg]
  · cases dps <;> cases e <;> simp [LuxEnv.step_core, Driver.next, hg]
  · intro hsafe
    have hag := (step_core_fields env).2.2.2
    have hraise : ((env.step_core).2.cadence_block p).1 = false := by
      rcases hsafe with hnone | ⟨h1, h2, h3⟩
      · have hn : (env.step_core).2.model_update_step_freq = none := by
          rw [(step_core_fields env).2.2.1, hnone]
        simp [LuxEnv.cadence_block, hn]
      · exact cadence_block_no_raise (env.step_core).2 p
          (by rw [hag]; exact h1) (by rw [hag]; exact h2) (by rw [hag]; exact h3)
    show (if ((env.step_core).2.cadence_block p).1 then none else some (env.step_core).1)
        = some (env.step_core).1
    rw [hraise]
    rfl

/-- C1 witness: ordinary completion at the base state. -/
theorem c1_step_termination_contract_witness :
    (baseEnv.step_core).1 = ⟨none, baseEnv.get_reward true true false, true⟩
    ∧ ((baseEnv.step_core).1.done = true ↔ baseEnv.match_generator.dps = [])
    ∧ (baseEnv.step (1/2)).1 = some (baseEnv.step_core).1 := by
  have h := c1_step_termination_contract baseEnv (1/2)
  exact ⟨h.1.2.1 ⟨rfl, rfl⟩, h.2.1, h.2.2.2 (Or.inl rfl)⟩

/-- C1 counterexample: after a successful reset of `c1Env0` (cadence 1,
registry holding only self-play), the very step call on which the driver
raises the step failure signal itself raises — the switch cascade finds no
branch for the draw p = 1/5 — so nothing is returned to the caller,
against the claim that this call returns `done = true` with no exception
propagating. -/
theorem c1_step_raises_after_driver_failure :
    ((c1Env0.reset).toOption.map (fun r => ((r.2).step (1/5)).1)) = some none := by
  norm_num [LuxEnv.reset, Except.toOption, LuxEnv.step, LuxEnv.step_core, Driver.next,
    LuxEnv.cadence_block, LuxEnv.model_update, LuxEnv.switch_opponent_policy, draw_policy,
    c1Env0, baseEnv, dp0]
  decide

/-- C8 (leak in the wrapper): resetting the stacking wrapper while the
agent-owned rolling cache still holds the previous episode value 42 builds
the first observation of the new episode from that carried-over value
(yielding 42001 here, not the 1 a cleared cache would give), and leaves
the wrapper cache holding the stale value instead of clearing it. -/
theorem c8_wrapper_reset_leaks :
    ((c8Wrapper.reset).toOption.map (fun r => r.1) = some 42001)
    ∧ ((c8Wrapper.reset).toOption.map (fun r => r.2.last_unit_obs) = some (some 42))
    ∧ c8Wrapper.env.get_observation_stacked dp0 (some 42)
        ≠ c8Wrapper.env.get_observation_stacked dp0 none := by
  refine ⟨rfl, rfl, by decide⟩
